import Mathlib

/-
Verification of the request admission and error-normalization pipeline of
the volunteer-activity backend (src/volunteer-api/server.js, with the two
revision variants src/unnamed/part_000 and src/unnamed/part_001).

Embedding conventions:
- JS error objects are modelled by `ErrObj`.  A field that the error
  handler only ever consumes through JS truthiness is modelled as an
  `Option`, where `none` stands for the whole falsy class: for `status`,
  absent or 0; for `message`, absent or the empty string; for `errors`,
  absent or not an array (the handler only calls `.map` on it).
- A JSON response is modelled by `Response` (HTTP status plus the body
  keys `success`, `message`, and the optional `errors` list).
- A middleware stage that can throw is modelled with `Except`.
-/

namespace VolunteerBackend

/-- One element of a Sequelize `err.errors` array; the handler reads only
its `message` field. -/
structure ErrItem where
  message : String
deriving DecidableEq, Repr

/-- A JS error object as consumed by the error handling middleware at
src/volunteer-api/server.js lines 123-154.  `status = none` models an
absent (or 0, hence falsy) declared status; `message = none` models an
absent or empty message; `errors = none` models an `errors` field that is
absent or not an array. -/
structure ErrObj where
  name : String
  status : Option Nat
  message : Option String
  errors : Option (List ErrItem)
deriving DecidableEq, Repr

/-- A JSON response of the pipeline: HTTP status code and the body keys
`success`, `message`, optional `errors`. -/
structure Response where
  status : Nat
  success : Bool
  message : String
  errors : Option (List String)
deriving DecidableEq, Repr

/-- Body message of the validation branch (server.js line 130). -/
def invalidDataMsg : String := "ข้อมูลไม่ถูกต้อง"

/-- Body message of the uniqueness branch (server.js line 138). -/
def duplicateDataMsg : String := "ข้อมูลซ้ำในระบบ"

/-- Body message of the token branch (server.js line 146). -/
def invalidTokenMsg : String := "Token ไม่ถูกต้อง"

/-- Generic server error message, the fallback of the final branch
(server.js line 152). -/
def serverErrorMsg : String := "เกิดข้อผิดพลาดภายในเซิร์ฟเวอร์"

/-- The error handling middleware of src/volunteer-api/server.js lines
123-154.  Branches in source order on `err.name`; the first two branches
evaluate `err.errors.map (e => e.message)`, which throws a TypeError when
`errors` is absent or not an array — that throw is modelled by
`Except.error ()`.  The final branch uses the JS truthiness fallbacks
`err.status || 500` and `err.message || serverErrorMsg`. -/
def errorHandler (err : ErrObj) : Except Unit Response :=
  if err.name = "SequelizeValidationError" then
    match err.errors with
    | some es =>
        Except.ok { status := 400, success := false, message := invalidDataMsg,
                    errors := some (es.map ErrItem.message) }
    | none => Except.error ()
  else if err.name = "SequelizeUniqueConstraintError" then
    match err.errors with
    | some es =>
        Except.ok { status := 400, success := false, message := duplicateDataMsg,
                    errors := some (es.map ErrItem.message) }
    | none => Except.error ()
  else if err.name = "JsonWebTokenError" then
    Except.ok { status := 401, success := false, message := invalidTokenMsg,
                errors := none }
  else
    Except.ok { status := err.status.getD 500, success := false,
                message := err.message.getD serverErrorMsg, errors := none }

/-- True when the error handler emits a JSON response on `err`, false when
it itself throws. -/
def emitsResponse (err : ErrObj) : Bool :=
  match errorHandler err with
  | Except.ok _ => true
  | Except.error _ => false

/-- One rate-limit counter: request count and the timestamp (ms) at which
the current window ends. -/
structure RLEntry where
  count : Nat
  resetTime : Nat
deriving DecidableEq, Repr

/-- The in-memory counter table of the rate limiter, keyed by client
identifier. -/
abbrev RLStore : Type := List (String × RLEntry)

/-- Look a client key up in the counter table. -/
def rlLookup : RLStore → String → Option RLEntry
  | [], _ => none
  | (k, e) :: rest, q => if k = q then some e else rlLookup rest q

/-- Store an entry for a client key, replacing any previous entry. -/
def rlInsert (store : RLStore) (q : String) (e : RLEntry) : RLStore :=
  (q, e) :: List.filter (fun p => p.1 != q) store

/-- The JSON body configured for rate-limit rejections
(src/volunteer-api/server.js lines 63-66), delivered with the
429-equivalent status. -/
def rateLimitMessage : Response :=
  { status := 429, success := false,
    message := "คำขอมากเกินไป กรุณาลองใหม่ในภายหลัง", errors := none }

/-- Modelled from the spec: the express-rate-limit package is not under
src/ (only its configuration at server.js lines 60-68 is).  Section 4.2 of
the spec: on each request, if no counter exists or the window has elapsed,
create or reset it to 1 with a fresh window end, otherwise increment; the
request is forwarded exactly when the incremented count does not exceed
the configured maximum.  Returns the updated table and the forwarding
decision. -/
def rlStep (w maxReq : Nat) (store : RLStore) (k : String) (now : Nat) :
    RLStore × Bool :=
  let e : RLEntry :=
    match rlLookup store k with
    | none => { count := 1, resetTime := now + w }
    | some old =>
        if old.resetTime ≤ now then { count := 1, resetTime := now + w }
        else { count := old.count + 1, resetTime := old.resetTime }
  (rlInsert store k e, decide (e.count ≤ maxReq))

/-- Outcome of the limiter stage for one request: `none` when the request
is forwarded to Router Dispatch, `some rateLimitMessage` when it is
rejected with the configured body. -/
def limiterOutcome (allowed : Bool) : Option Response :=
  if allowed then none else some rateLimitMessage

/-- Run the limiter over a sequence of request timestamps from one client
key, returning the final counter table and the forwarding decisions in
order. -/
def runRL (w maxReq : Nat) (k : String) : RLStore → List Nat → RLStore × List Bool
  | store, [] => (store, [])
  | store, t :: ts =>
    let s := rlStep w maxReq store k t
    let rest := runRL w maxReq k s.1 ts
    (rest.1, s.2 :: rest.2)

/-- Expected forwarding decisions for `n` in-window requests starting from
a counter value `c`: request `i` of the run is allowed exactly when
`c + i ≤ maxReq`. -/
def decisionsFrom (c maxReq : Nat) : Nat → List Bool
  | 0 => []
  | n + 1 => decide (c + 1 ≤ maxReq) :: decisionsFrom (c + 1) maxReq n

/-- The mount path of the rate limiter (server.js line 68). -/
def apiMountPath : String := "/api/"

/-- Character-level test that the path `p` lies under the mount string
`m`. -/
def pathUnder (m p : String) : Bool :=
  List.isPrefixOf m.data p.data

/-- Modelled from the spec: Express mounting internals are not under src/;
per section 4.4 a mount guards the paths under its prefix.  The limiter
stage of server.js line 68 touches the counter table only for request
paths under the `/api/` mount; every other request passes through with
the table unchanged. -/
def limiterAt (w maxReq : Nat) (store : RLStore) (p k : String) (now : Nat) :
    RLStore × Option Response :=
  if pathUnder apiMountPath p then
    let s := rlStep w maxReq store k now
    (s.1, limiterOutcome s.2)
  else (store, none)

/-- The static allow-list of the CORS origin callback
(src/volunteer-api/server.js line 74). -/
def allowedOrigins : List String :=
  ["http://localhost:5173", "https://project-100-front.onrender.com"]

/-- The error raised by the CORS origin callback on a disallowed origin
(server.js line 77): a plain JS Error, so its name is "Error" and it
declares no status and no errors array. -/
def corsBlockedError : ErrObj :=
  { name := "Error", status := none,
    message := some "CORS Policy Blocks This Request", errors := none }

/-- The CORS origin callback of src/volunteer-api/server.js lines 72-79.
The argument is the raw Origin header: `none` when the header is absent.
The source tests `!origin || allowedOrigins.includes(origin)`, so an
absent header and the empty string (both JS-falsy) are allowed, and
otherwise membership in the allow-list decides. -/
def corsOriginDecision (origin : Option String) : Except ErrObj Bool :=
  if origin.getD "" = "" ∨ allowedOrigins.contains (origin.getD "") then
    Except.ok true
  else
    Except.error corsBlockedError

/-- Modelled from the spec: the cors package is not under src/ (only its
configuration at server.js lines 71-84 is).  Section 4.1: allowed requests
receive response headers granting credentialed cross-origin access and
exposing the designated Authorization header. -/
def corsAllowedHeaders : List (String × String) :=
  [("Access-Control-Allow-Credentials", "true"),
   ("Access-Control-Expose-Headers", "Authorization")]

/-- The CORS stage: either the access-control headers for an allowed
request, or the policy error raised by the origin callback. -/
def corsApply (origin : Option String) : Except ErrObj (List (String × String)) :=
  match corsOriginDecision origin with
  | Except.ok _ => Except.ok corsAllowedHeaders
  | Except.error e => Except.error e

/-- The keys of a query string, in order and with multiplicity. -/
def queryKeys (q : List (String × String)) : List String :=
  q.map Prod.fst

/-- The policy error for a parameter-polluted request, per the error
taxonomy of spec section 7. -/
def pollutionError : ErrObj :=
  { name := "PolicyError", status := none,
    message := some "parameter pollution", errors := none }

/-- Modelled from the spec: the hpp package is not under src/ (only its
mounting at server.js line 55 is).  Section 4.3: the sanitizer rejects
requests whose query string contains duplicate parameter keys unless the
key is whitelisted; otherwise the query passes through unchanged. -/
def hppGuard (whitelist : List String) (q : List (String × String)) :
    Except ErrObj (List (String × String)) :=
  if (queryKeys q).any
      (fun k => !(whitelist.contains k) && decide (1 < (queryKeys q).count k)) then
    Except.error pollutionError
  else
    Except.ok q

/-- The response of the 404 handler (src/volunteer-api/server.js lines
157-162): status 404 with the resource-not-found message and no errors
key. -/
def notFoundResponse : Response :=
  { status := 404, success := false, message := "ไม่พบ API ที่ร้องขอ",
    errors := none }

/-- The middleware stages of src/volunteer-api/server.js, one constructor
per registration. -/
inductive Stage where
  | cookieStage
  | helmetStage
  | xssStage
  | hppStage
  | cookieStageRepeat
  | limiterStage
  | corsStage
  | jsonBodyStage
  | urlencodedStage
  | staticStage (dir : String)
  | routeMount (m : String)
  | errorStage
  | notFoundStage
deriving DecidableEq, Repr

/-- The registration order of src/volunteer-api/server.js: cookie parser
(line 35), helmet (42), xss (54), hpp (55), cookie parser again (56),
limiter (68), cors (71), body parsers (89-90), static mounts (97-98),
the ten route mounts (101-110), the error handler (123), and the 404
handler (157). -/
def middlewareStack : List Stage :=
  [Stage.cookieStage, Stage.helmetStage, Stage.xssStage, Stage.hppStage,
   Stage.cookieStageRepeat, Stage.limiterStage, Stage.corsStage,
   Stage.jsonBodyStage, Stage.urlencodedStage,
   Stage.staticStage "/uploads", Stage.staticStage "/uploadsfile",
   Stage.routeMount "/api/auth", Stage.routeMount "/api/user",
   Stage.routeMount "/api/faculty", Stage.routeMount "/api/",
   Stage.routeMount "/api/category", Stage.routeMount "/api",
   Stage.routeMount "/api/profile", Stage.routeMount "/api/",
   Stage.routeMount "/api/notifications", Stage.routeMount "/api/",
   Stage.errorStage, Stage.notFoundStage]

/-- The mount paths of the route registrations (server.js lines 101-110),
in order. -/
def routeMounts : List String :=
  ["/api/auth", "/api/user", "/api/faculty", "/api/", "/api/category",
   "/api", "/api/profile", "/api/", "/api/notifications", "/api/"]

/-- Modelled from the spec: Router Dispatch (section 4.4) matches the
request path against a registered handler-group prefix; router internals
are excluded collaborators.  A mount matches the paths under its
prefix. -/
def mountMatches (m p : String) : Bool :=
  pathUnder m p

/-- The terminal fallback: when no route mount matches the request path,
the 404 handler answers with `notFoundResponse`; otherwise the matching
handler group (a black box) owns the request. -/
def dispatchFallback (p : String) : Option Response :=
  if routeMounts.any (fun m => mountMatches m p) then none
  else some notFoundResponse

/-- The cookie signing secret (src/volunteer-api/server.js line 34):
`process.env.COOKIE_SECRET || "your-secret-key-123"`, so an absent or
empty environment variable falls back to the hardcoded secret. -/
def cookieSecret (env : Option String) : String :=
  match env with
  | none => "your-secret-key-123"
  | some s => if s = "" then "your-secret-key-123" else s

theorem rlLookup_insert (store : RLStore) (k : String) (e : RLEntry) :
    rlLookup (rlInsert store k e) k = some e := by
  simp [rlInsert, rlLookup]

theorem runRL_append (w maxReq : Nat) (k : String) (ts1 ts2 : List Nat) :
    ∀ store : RLStore,
      (runRL w maxReq k store (ts1 ++ ts2)).2 =
        (runRL w maxReq k store ts1).2 ++
          (runRL w maxReq k (runRL w maxReq k store ts1).1 ts2).2 ∧
      (runRL w maxReq k store (ts1 ++ ts2)).1 =
        (runRL w maxReq k (runRL w maxReq k store ts1).1 ts2).1 := by
  induction ts1 with
  | nil => intro store; simp [runRL]
  | cons t ts ih =>
    intro store
    simp only [List.cons_append, runRL, List.append_eq]
    exact ⟨by rw [(ih _).1], by rw [(ih _).2]⟩

theorem runRL_within (w maxReq : Nat) (k : String) (ts : List Nat) :
    ∀ (c r : Nat) (store : RLStore), rlLookup store k = some ⟨c, r⟩ →
      (∀ t ∈ ts, t < r) →
      (runRL w maxReq k store ts).2 = decisionsFrom c maxReq ts.length ∧
      rlLookup (runRL w maxReq k store ts).1 k = some ⟨c + ts.length, r⟩ := by
  induction ts with
  | nil =>
    intro c r store h _
    simpa [runRL, decisionsFrom] using h
  | cons t ts ih =>
    intro c r store h hts
    have ht : t < r := hts t (List.mem_cons_self t ts)
    have hstep : rlStep w maxReq store k t =
        (rlInsert store k ⟨c + 1, r⟩, decide (c + 1 ≤ maxReq)) := by
      simp [rlStep, h, Nat.not_le.mpr ht]
    obtain ⟨ih1, ih2⟩ := ih (c + 1) r (rlInsert store k ⟨c + 1, r⟩)
      (rlLookup_insert store k ⟨c + 1, r⟩)
      (fun u hu => hts u (List.mem_cons_of_mem t hu))
    constructor
    · simp [runRL, hstep, decisionsFrom, ih1]
    · have harith : c + 1 + ts.length = c + (ts.length + 1) := by omega
      simp only [runRL, hstep]
      rw [ih2, harith]
      simp

theorem runRL_cons (w maxReq : Nat) (k : String) (store : RLStore) (t : Nat)
    (ts : List Nat) :
    runRL w maxReq k store (t :: ts) =
      ((runRL w maxReq k (rlStep w maxReq store k t).1 ts).1,
       (rlStep w maxReq store k t).2 ::
         (runRL w maxReq k (rlStep w maxReq store k t).1 ts).2) := by
  simp [runRL]

theorem decisionsFrom_true (maxReq n : Nat) :
    ∀ c : Nat, c + n ≤ maxReq →
      decisionsFrom c maxReq n = List.replicate n true := by
  induction n with
  | zero => intro c _; simp [decisionsFrom]
  | succ m ih =>
    intro c h
    have h1 : c + 1 ≤ maxReq := by omega
    simp [decisionsFrom, h1, List.replicate_succ, ih (c + 1) (by omega)]

theorem decisionsFrom_split (maxReq a : Nat) :
    ∀ c b : Nat,
      decisionsFrom c maxReq (a + b) =
        decisionsFrom c maxReq a ++ decisionsFrom (c + a) maxReq b := by
  induction a with
  | zero => intro c b; simp [decisionsFrom]
  | succ a ih =>
    intro c b
    have hn : a + 1 + b = (a + b) + 1 := by omega
    have he : c + 1 + a = c + (a + 1) := by omega
    rw [hn]
    simp only [decisionsFrom, ih (c + 1) b, he, List.cons_append]

/-- C1: classification by the declared error name follows the fixed
precedence of server.js lines 127-153: a validation-named error yields 400
with the invalid-data message and the mapped field-level messages; a
uniqueness-named error yields 400 with the duplicate-data message and the
mapped list; a token-named error yields 401 with the invalid-token message
and no errors key; every other error yields its declared status (else 500)
and its declared message (else the generic server-error message). -/
theorem error_classification (err : ErrObj) :
    (err.name = "SequelizeValidationError" → ∀ es, err.errors = some es →
      errorHandler err = Except.ok
        { status := 400, success := false, message := invalidDataMsg,
          errors := some (es.map ErrItem.message) }) ∧
    (err.name = "SequelizeUniqueConstraintError" → ∀ es, err.errors = some es →
      errorHandler err = Except.ok
        { status := 400, success := false, message := duplicateDataMsg,
          errors := some (es.map ErrItem.message) }) ∧
    (err.name = "JsonWebTokenError" →
      errorHandler err = Except.ok
        { status := 401, success := false, message := invalidTokenMsg,
          errors := none }) ∧
    (err.name ∉ ["SequelizeValidationError", "SequelizeUniqueConstraintError",
        "JsonWebTokenError"] →
      errorHandler err = Except.ok
        { status := err.status.getD 500, success := false,
          message := err.message.getD serverErrorMsg, errors := none }) := by
  refine ⟨?_, ?_, ?_, ?_⟩
  · intro h es hes
    simp [errorHandler, h, hes]
  · intro h es hes
    simp [errorHandler, h, hes]
  · intro h
    simp [errorHandler, h]
  · intro h
    simp only [List.mem_cons, List.not_mem_nil, or_false, not_or] at h
    obtain ⟨h1, h2, h3⟩ := h
    simp [errorHandler, h1, h2, h3]

/-- Witness for C1 at a concrete uncategorized error with a declared
status and message. -/
theorem error_classification_witness :
    errorHandler
        { name := "RangeError", status := some 413,
          message := some "Payload too large", errors := none } =
      Except.ok
        { status := 413, success := false, message := "Payload too large",
          errors := none } := by
  have h := (error_classification
      { name := "RangeError", status := some 413,
        message := some "Payload too large", errors := none }).2.2.2 (by decide)
  simpa using h

/-- C2 counterexample: an error named for the validation branch whose
errors field is absent makes the handler evaluate `err.errors.map`, which
throws, so the normalizer emits no JSON response for this input. -/
theorem normalizer_throw_counterexample :
    emitsResponse
      { name := "SequelizeValidationError", status := none,
        message := some "Validation error", errors := none } = false := rfl

/-- C2 amended: for every error whose errors field is a list whenever its
name selects the validation or uniqueness branch, the normalizer emits
exactly one JSON response and does not itself throw. -/
theorem normalizer_no_throw (err : ErrObj)
    (h : err.name = "SequelizeValidationError" ∨
         err.name = "SequelizeUniqueConstraintError" → err.errors ≠ none) :
    emitsResponse err = true := by
  by_cases h1 : err.name = "SequelizeValidationError"
  · obtain ⟨es, hes⟩ := Option.ne_none_iff_exists'.mp (h (Or.inl h1))
    simp [emitsResponse, errorHandler, h1, hes]
  · by_cases h2 : err.name = "SequelizeUniqueConstraintError"
    · obtain ⟨es, hes⟩ := Option.ne_none_iff_exists'.mp (h (Or.inr h2))
      simp [emitsResponse, errorHandler, h1, h2, hes]
    · by_cases h3 : err.name = "JsonWebTokenError"
      · simp [emitsResponse, errorHandler, h1, h2, h3]
      · simp [emitsResponse, errorHandler, h1, h2, h3]

/-- Witness for the amended C2 at a token error without an errors list. -/
theorem normalizer_no_throw_witness :
    emitsResponse
      { name := "JsonWebTokenError", status := none, message := none,
        errors := none } = true :=
  normalizer_no_throw _ (by decide)

/-- C3: every response of the error handler has success false, and its
errors key is populated only in the validation and uniqueness branches;
the rate-limit rejection body and the 404 fallback body also carry success
false and no errors key. -/
theorem error_envelope (err : ErrObj) (r : Response)
    (h : errorHandler err = Except.ok r) :
    r.success = false ∧
    (r.errors ≠ none →
      err.name = "SequelizeValidationError" ∨
      err.name = "SequelizeUniqueConstraintError") ∧
    rateLimitMessage.success = false ∧ rateLimitMessage.errors = none ∧
    notFoundResponse.success = false ∧ notFoundResponse.errors = none := by
  refine ⟨?_, ?_, rfl, rfl, rfl, rfl⟩
  all_goals
    unfold errorHandler at h
    split_ifs at h with h1 h2 h3
  case pos =>
    cases hes : err.errors with
    | none => rw [hes] at h; cases h
    | some es => rw [hes] at h; cases h; rfl
  case pos =>
    cases hes : err.errors with
    | none => rw [hes] at h; cases h
    | some es => rw [hes] at h; cases h; rfl
  case pos => cases h; rfl
  case neg => cases h; rfl
  case pos =>
    cases hes : err.errors with
    | none => rw [hes] at h; cases h
    | some es => rw [hes] at h; cases h; exact fun _ => Or.inl h1
  case pos =>
    cases hes : err.errors with
    | none => rw [hes] at h; cases h
    | some es => rw [hes] at h; cases h; exact fun _ => Or.inr h2
  case pos => cases h; intro hc; exact absurd rfl hc
  case neg => cases h; intro hc; exact absurd rfl hc

/-- Witness for C3 at a concrete token error. -/
theorem error_envelope_witness :
    (Response.mk 401 false invalidTokenMsg none).success = false ∧
    ((Response.mk 401 false invalidTokenMsg none).errors ≠ none →
      ("JsonWebTokenError" : String) = "SequelizeValidationError" ∨
      ("JsonWebTokenError" : String) = "SequelizeUniqueConstraintError") ∧
    rateLimitMessage.success = false ∧ rateLimitMessage.errors = none ∧
    notFoundResponse.success = false ∧ notFoundResponse.errors = none :=
  error_envelope
    { name := "JsonWebTokenError", status := none, message := none,
      errors := none }
    (Response.mk 401 false invalidTokenMsg none) rfl

/-- C7: a request denied by the CORS origin callback surfaces as an error
object (not a direct response); the denial error declares no status, so
the normalizer reduces it to status 500 with the policy error message. -/
theorem cors_denial_normalized (origin : Option String) (e : ErrObj)
    (h : corsApply origin = Except.error e) :
    e.status = none ∧
    errorHandler e = Except.ok
      { status := 500, success := false,
        message := "CORS Policy Blocks This Request", errors := none } := by
  have he : e = corsBlockedError := by
    unfold corsApply corsOriginDecision at h
    split_ifs at h with h1
    all_goals simp_all
  subst he
  exact ⟨rfl, rfl⟩

/-- Witness for C7 at a disallowed concrete origin. -/
theorem cors_denial_normalized_witness :
    corsBlockedError.status = none ∧
    errorHandler corsBlockedError = Except.ok
      { status := 500, success := false,
        message := "CORS Policy Blocks This Request", errors := none } :=
  cors_denial_normalized (some "https://evil.example") corsBlockedError rfl

/-- C10: an absent COOKIE_SECRET environment variable falls back to the
hardcoded secret, and the configured cookie signing secret is never
empty. -/
theorem cookie_secret_fallback :
    cookieSecret none = "your-secret-key-123" ∧
    ∀ env : Option String, cookieSecret env ≠ "" := by
  refine ⟨rfl, ?_⟩
  intro env
  cases env with
  | none => decide
  | some s =>
    by_cases hs : s = ""
    · subst hs; decide
    · simp [cookieSecret, hs]

/-- C5 counterexample: the empty-string Origin header is neither absent
nor a member of the allow-list, yet the origin callback allows it, because
the source tests JS truthiness with `!origin` and the empty string is
falsy.  So the claim that every other origin value raises a policy error
fails at this concrete input. -/
theorem cors_empty_origin_counterexample :
    (some "" ≠ (none : Option String)) ∧
    allowedOrigins.contains "" = false ∧
    corsApply (some "") = Except.ok corsAllowedHeaders := by
  refine ⟨by simp, by decide, rfl⟩

/-- C5 amended: a request whose Origin header is absent, empty, or a
member of the allow-list is allowed and receives the credentialed
access-control headers, Authorization exposure included; every other
origin value raises the policy error. -/
theorem cors_policy_amended (origin : Option String) :
    ((origin.getD "" = "" ∨ allowedOrigins.contains (origin.getD "")) →
      corsApply origin = Except.ok corsAllowedHeaders ∧
      ("Access-Control-Allow-Credentials", "true") ∈ corsAllowedHeaders ∧
      ("Access-Control-Expose-Headers", "Authorization") ∈ corsAllowedHeaders) ∧
    (¬(origin.getD "" = "" ∨ allowedOrigins.contains (origin.getD "")) →
      corsApply origin = Except.error corsBlockedError) := by
  constructor
  · intro h
    refine ⟨?_, by simp [corsAllowedHeaders], by simp [corsAllowedHeaders]⟩
    unfold corsApply corsOriginDecision
    rw [if_pos h]
  · intro h
    unfold corsApply corsOriginDecision
    rw [if_neg h]

/-- Witness for the amended C5 at a concrete allow-listed origin. -/
theorem cors_policy_amended_witness :
    corsApply (some "http://localhost:5173") = Except.ok corsAllowedHeaders ∧
    ("Access-Control-Allow-Credentials", "true") ∈ corsAllowedHeaders ∧
    ("Access-Control-Expose-Headers", "Authorization") ∈ corsAllowedHeaders :=
  (cors_policy_amended (some "http://localhost:5173")).1 (by decide)

/-- C6: a query string containing a duplicate parameter key that is not
whitelisted is rejected by the pollution guard, so the polluted query
never reaches Router Dispatch. -/
theorem pollution_guard_rejects (wl : List String)
    (q : List (String × String)) (k : String)
    (hcount : 1 < (queryKeys q).count k) (hwl : k ∉ wl) :
    hppGuard wl q = Except.error pollutionError := by
  have hmem : k ∈ queryKeys q := by
    have hpos : 0 < (queryKeys q).count k := by omega
    exact List.count_pos_iff.mp hpos
  have hany : (queryKeys q).any
      (fun x => !(wl.contains x) && decide (1 < (queryKeys q).count x)) = true := by
    simp only [List.any_eq_true, Bool.and_eq_true, Bool.not_eq_true',
      decide_eq_true_eq]
    exact ⟨k, hmem, by simpa using hwl, hcount⟩
  unfold hppGuard
  rw [if_pos hany]

/-- Witness for C6 at a concrete polluted query with an empty whitelist,
matching the hpp mounting of server.js line 55. -/
theorem pollution_guard_rejects_witness :
    hppGuard [] [("a", "1"), ("a", "2")] = Except.error pollutionError :=
  pollution_guard_rejects [] [("a", "1"), ("a", "2")] "a" (by decide) (by decide)

/-- C8: a request path matched by no registered route mount is answered by
the terminal fallback with HTTP 404, success false and the
resource-not-found message; in the registration order the 404 handler is
the final stage, after the error handler, which itself comes after every
route mount. -/
theorem not_found_fallback (p : String)
    (h : routeMounts.all (fun m => !(mountMatches m p)) = true) :
    dispatchFallback p = some notFoundResponse ∧
    notFoundResponse.status = 404 ∧
    notFoundResponse.success = false ∧
    notFoundResponse.message = "ไม่พบ API ที่ร้องขอ" ∧
    middlewareStack.getLast? = some Stage.notFoundStage ∧
    middlewareStack.dropLast.getLast? = some Stage.errorStage ∧
    middlewareStack.indexOf Stage.errorStage <
      middlewareStack.indexOf Stage.notFoundStage ∧
    (∀ m, Stage.routeMount m ∈ middlewareStack →
      middlewareStack.indexOf (Stage.routeMount m) <
        middlewareStack.indexOf Stage.errorStage) := by
  refine ⟨?_, rfl, rfl, rfl, by decide, by decide, by decide, ?_⟩
  · have hnone : routeMounts.any (fun m => mountMatches m p) = false := by
      rw [List.any_eq_false]
      intro m hm
      have := List.all_eq_true.mp h m hm
      simpa using this
    simp [dispatchFallback, hnone]
  · intro m hm
    simp only [middlewareStack, List.mem_cons, List.not_mem_nil, or_false,
      reduceCtorEq, false_or, Stage.routeMount.injEq] at hm
    rcases hm with rfl | rfl | rfl | rfl | rfl | rfl | rfl | rfl | rfl | rfl
    all_goals decide

/-- Witness for C8 at a path outside every mount. -/
theorem not_found_fallback_witness :
    dispatchFallback "/health" = some notFoundResponse :=
  (not_found_fallback "/health" (by decide)).1

/-- C9: the limiter is mounted on the api prefix only: a request whose
path is not under that prefix leaves the counter table unchanged and is
never rejected with the rate-limit body, whatever the state of the
table. -/
theorem limiter_frame (w maxReq : Nat) (store : RLStore) (p k : String)
    (now : Nat) (h : pathUnder apiMountPath p = false) :
    limiterAt w maxReq store p k now = (store, none) := by
  simp [limiterAt, h]

/-- Witness for C9 at a static-file path with the configured window and
maximum of server.js lines 61-62. -/
theorem limiter_frame_witness :
    limiterAt 6000000 1200 [] "/uploads/a.png" "203.0.113.7" 0 = ([], none) :=
  limiter_frame 6000000 1200 [] "/uploads/a.png" "203.0.113.7" 0 (by decide)

/-- C4: per request the counter is created or reset to 1 when no counter
exists or its window has elapsed, and incremented otherwise; starting
fresh, a client sending the maximum plus one requests inside one window
sees exactly the last of them rejected with the configured body, and after
the window elapses the counter resets so that the maximum further
requests are all forwarded. -/
theorem rate_limiter_window (w maxReq t0 t2 : Nat) (ts1 ts3 : List Nat)
    (k : String) (hmax : 1 ≤ maxReq)
    (hts1 : ∀ t ∈ ts1, t < t0 + w) (hlen1 : ts1.length = maxReq)
    (ht2 : t0 + w ≤ t2)
    (hts3 : ∀ t ∈ ts3, t < t2 + w) (hlen3 : ts3.length = maxReq - 1) :
    (∀ (store : RLStore) (now : Nat), rlLookup store k = none →
        rlLookup (rlStep w maxReq store k now).1 k = some ⟨1, now + w⟩) ∧
    (∀ (store : RLStore) (now : Nat) (e : RLEntry), rlLookup store k = some e →
        e.resetTime ≤ now →
        rlLookup (rlStep w maxReq store k now).1 k = some ⟨1, now + w⟩) ∧
    (∀ (store : RLStore) (now : Nat) (e : RLEntry), rlLookup store k = some e →
        now < e.resetTime →
        rlLookup (rlStep w maxReq store k now).1 k =
          some ⟨e.count + 1, e.resetTime⟩) ∧
    (runRL w maxReq k [] (t0 :: ts1 ++ t2 :: ts3)).2.map limiterOutcome =
      List.replicate maxReq none ++
        some rateLimitMessage :: List.replicate maxReq none := by
  obtain ⟨m, rfl⟩ : ∃ n, maxReq = n + 1 := ⟨maxReq - 1, by omega⟩
  refine ⟨?_, ?_, ?_, ?_⟩
  · intro store now h
    simp [rlStep, h, rlLookup_insert]
  · intro store now e h he
    simp [rlStep, h, he, rlLookup_insert]
  · intro store now e h he
    simp [rlStep, h, Nat.not_le.mpr he, rlLookup_insert]
  · have hlen3s : ts3.length = m := by omega
    have hstep0 : rlStep w (m + 1) [] k t0 =
        (rlInsert [] k ⟨1, t0 + w⟩, true) := by
      simp [rlStep, rlLookup]
    obtain ⟨h1d, h1s⟩ := runRL_within w (m + 1) k ts1 1 (t0 + w)
      (rlInsert [] k ⟨1, t0 + w⟩) (rlLookup_insert _ _ _) hts1
    have hstep2 : rlStep w (m + 1)
        (runRL w (m + 1) k (rlInsert [] k ⟨1, t0 + w⟩) ts1).1 k t2 =
        (rlInsert (runRL w (m + 1) k (rlInsert [] k ⟨1, t0 + w⟩) ts1).1 k
          ⟨1, t2 + w⟩, true) := by
      simp [rlStep, h1s, ht2]
    obtain ⟨h3d, _⟩ := runRL_within w (m + 1) k ts3 1 (t2 + w)
      (rlInsert (runRL w (m + 1) k (rlInsert [] k ⟨1, t0 + w⟩) ts1).1 k
        ⟨1, t2 + w⟩) (rlLookup_insert _ _ _) hts3
    have hsplit := (runRL_append w (m + 1) k ts1 (t2 :: ts3)
      (rlInsert [] k ⟨1, t0 + w⟩)).1
    have hdec : (runRL w (m + 1) k [] (t0 :: ts1 ++ t2 :: ts3)).2 =
        true :: (decisionsFrom 1 (m + 1) (m + 1) ++
          true :: decisionsFrom 1 (m + 1) m) := by
      simp only [List.cons_append, runRL_cons, hstep0, hsplit, h1d, hlen1,
        hstep2, h3d, hlen3s]
    have hlast : decisionsFrom (1 + m) (m + 1) 1 = [false] := by
      have hno : ¬ (1 + m + 1 ≤ m + 1) := by omega
      simp [decisionsFrom, hno]
    have htrue : decisionsFrom 1 (m + 1) m = List.replicate m true :=
      decisionsFrom_true (m + 1) m 1 (by omega)
    rw [hdec, decisionsFrom_split (m + 1) m 1 1, htrue, hlast]
    simp [limiterOutcome, List.replicate_succ, List.append_assoc]

/-- Witness for C4: window 5, maximum 2, requests at times 0, 1, 2, 5, 6:
the third request is rejected, the two after the window reset pass. -/
theorem rate_limiter_window_witness :
    (runRL 5 2 "client" [] ((0 : Nat) :: [1, 2] ++ 5 :: [6])).2.map
        limiterOutcome =
      List.replicate 2 none ++
        some rateLimitMessage :: List.replicate 2 none :=
  (rate_limiter_window 5 2 0 5 [1, 2] [6] "client" (by decide) (by decide)
    (by decide) (by decide) (by decide) (by decide)).2.2.2

end VolunteerBackend
